import Mathlib

/-!
Verification development for the Nubert BLE speaker integration
(`custom_components/nubert/media_player.py` and the standalone
`nubert_cli.py`).

The Python coordinator is embedded shallowly:
  * protocol command constants are the same hex strings as in the source,
    converted with an embedding of Python's `int(s, 16)` / `bytes.fromhex`;
  * the coordinator's cached attributes (`power`, `volume_db`,
    `source_code`, `muted`, `is_slave`, `_is_sub`) become the `Coord`
    structure;
  * `_notification_cb` becomes the pure state transformer
    `notificationCb`;
  * outbound GATT writes become explicit `Write` values returned next to
    the new state;
  * `_ensure_connected`'s retry skeleton and `_async_update_data`'s
    two-attempt poll loop are embedded with the per-attempt outcome
    supplied by an oracle (success / raised error / delivered frames),
    since the BLE transport itself is outside the program.
-/

/-! ### Protocol command constants (hex strings, as in the source) -/

def ALL_SETTING_GET : String := "40"
def SOFT_POWER_OFF_GET : String := "1E"
def SOFT_POWER_OFF_SET : String := "1F"
def VOLUME_ADJUST_GET : String := "0A"
def VOLUME_ADJUST_SET : String := "0B"
def SOURCE_SELECT_GET : String := "0E"
def SOURCE_SELECT_SET : String := "0F"
def MUTE_SETTING_GET : String := "4A"
def MUTE_SETTING_SET : String := "4B"
def IS_SLAVE : String := "4C"
def BLE_CONNECT_INDICATION : String := "4D"

/-- Value of one hexadecimal digit (Python `int(c, 16)` accepts either case). -/
def hexVal (c : Char) : Nat :=
  if '0' ≤ c ∧ c ≤ '9' then c.toNat - 48
  else if 'a' ≤ c ∧ c ≤ 'f' then c.toNat - 87
  else if 'A' ≤ c ∧ c ≤ 'F' then c.toNat - 55
  else 0

/-- Python `int(s, 16)`. -/
def intHex (s : String) : Nat :=
  s.data.foldl (fun a c => 16 * a + hexVal c) 0

/-- Python `bytes.fromhex`: consume the characters two at a time. -/
def bytesFromHexList : List Char → List Nat
  | c1 :: c2 :: rest => (16 * hexVal c1 + hexVal c2) :: bytesFromHexList rest
  | _ => []

def bytesFromHex (s : String) : List Nat := bytesFromHexList s.data

/-- `COMMAND_HEX`: the batched query, built exactly as in the source. -/
def COMMAND_HEX : String :=
  ALL_SETTING_GET
    ++ "05"  -- payload length
    ++ SOFT_POWER_OFF_GET
    ++ VOLUME_ADJUST_GET
    ++ SOURCE_SELECT_GET
    ++ MUTE_SETTING_GET
    ++ IS_SLAVE

def COMMAND_BYTES : List Nat := bytesFromHex COMMAND_HEX

/-- Codec request shape from the wire protocol: command id, payload
length, payload bytes. -/
def encodeRequest (cmd : Nat) (payload : List Nat) : List Nat :=
  cmd :: payload.length :: payload

/-! ### Source-name tables (`const.py`) -/

def SOURCE_NAMES_SPEAKER : List (Nat × String) :=
  [(0x00, "AUX"), (0x02, "XLR"), (0x04, "COAX 1"), (0x05, "COAX 2"),
   (0x06, "OPTO 1"), (0x07, "OPTO 2"), (0x08, "USB"), (0x09, "PORT")]

def SOURCE_NAMES_SUB : List (Nat × String) :=
  [(0x00, "AUX"), (0x01, "WIRELESS")]

/-! ### Coordinator cached state -/

/-- The cached attributes of `NubertSpeakerCoordinator`: the five Session
State fields plus the device-profile flag `_is_sub`. -/
structure Coord where
  power : Option Bool
  volume_db : Option Int
  source_code : Option Nat
  muted : Option Bool
  is_slave : Option Bool
  is_sub : Bool
deriving DecidableEq, Repr

/-- State right after `__init__`: every field unknown, profile Speaker. -/
def initCoord : Coord :=
  { power := none, volume_db := none, source_code := none,
    muted := none, is_slave := none, is_sub := false }

/-- An outbound GATT write: the packet bytes and the `response=` flag. -/
structure Write where
  frame : List Nat
  response : Bool
deriving DecidableEq, Repr

/-! ### Module-level parse helpers -/

/-- `_parse_power`: empty payload gives no update; byte 0 means ON. -/
def parsePower : List Nat → Option Bool
  | [] => none
  | b :: _ => some (b == 0)

/-- `_parse_volume` (speaker scale): raw above 100 is capped, then the
100 offset is subtracted. -/
def parseVolume : List Nat → Option Int
  | [] => none
  | b :: _ => some (((min b 100 : Nat) : Int) - 100)

/-- `_parse_source`: the raw byte verbatim. -/
def parseSource : List Nat → Option Nat
  | [] => none
  | b :: _ => some b

/-! ### Notification callback -/

/-- `_notification_cb`: frames shorter than 2 bytes are dropped;
otherwise `cmd = data[0]`, `length = data[1]`,
`payload = data[2 : 2+length]`, and the recognized command ids update
their single field. -/
def notificationCb (c : Coord) (data : List Nat) : Coord :=
  match data with
  | cmd :: len :: rest =>
    let payload := rest.take len
    if cmd = intHex SOFT_POWER_OFF_GET then
      match parsePower payload with
      | some v => { c with power := some v }
      | none => c
    else if cmd = intHex VOLUME_ADJUST_GET then
      match payload with
      | raw :: _ =>
        if c.is_sub then
          -- Subwoofer: raw 0..21 -> -15..+6 dB
          { c with volume_db := some (((min raw 21 : Nat) : Int) - 15) }
        else
          { c with volume_db := some (((min raw 100 : Nat) : Int) - 100) }
      | [] => c
    else if cmd = intHex SOURCE_SELECT_GET then
      match parseSource payload with
      | some v => { c with source_code := some v }
      | none => c
    else if cmd = intHex MUTE_SETTING_GET then
      match payload with
      | b :: _ => { c with muted := some (b != 0) }
      | [] => c
    else if cmd = intHex IS_SLAVE then
      match payload with
      | b :: _ => { c with is_slave := some (b != 0) }
      | [] => c
    else c
  | _ => c

/-! ### Outbound commands -/

/-- `_async_send_simple`: packet is `cmd_hex + "01" + value`, i.e. the
three bytes `[cmd, 1, value]`; `response` is requested unless the device
is a subwoofer. -/
def sendSimple (c : Coord) (cmdHex : String) (valueByte : Nat) : Write :=
  { frame := [intHex cmdHex, 1, valueByte], response := !c.is_sub }

/-- `async_set_power`: no-op when the cached power already equals the
request; otherwise write the toggle (0 = on, 1 = off) and optimistically
update the cached power. -/
def asyncSetPower (c : Coord) (turnOn : Bool) : Coord × List Write :=
  if c.power = some turnOn then (c, [])
  else
    ({ c with power := some turnOn },
     [sendSimple c SOFT_POWER_OFF_SET (if turnOn then 0 else 1)])

/-- `async_set_volume`: clamp the requested dB into the profile's range,
shift to the raw scale, write; cached state is untouched. -/
def asyncSetVolume (c : Coord) (dbValue : Int) : Coord × Write :=
  if c.is_sub then
    let db := max (-15) (min 6 dbValue)
    let rawVal := db + 15  -- map to 0..21
    (c, sendSimple c VOLUME_ADJUST_SET rawVal.toNat)
  else
    let db := max (-100) (min 0 dbValue)
    let rawVal := db + 100  -- map to 0..100
    (c, sendSimple c VOLUME_ADJUST_SET rawVal.toNat)

/-- `async_set_mute`. -/
def asyncSetMute (c : Coord) (mute : Bool) : Write :=
  sendSimple c MUTE_SETTING_SET (if mute then 1 else 0)

/-- Coordinator-level `async_select_source`: write the code verbatim. -/
def asyncSelectSourceCoord (c : Coord) (srcCode : Nat) : Write :=
  sendSimple c SOURCE_SELECT_SET srcCode

/-- `source_names` property: table chosen by the device profile. -/
def sourceNames (c : Coord) : List (Nat × String) :=
  if c.is_sub then SOURCE_NAMES_SUB else SOURCE_NAMES_SPEAKER

/-- Python `str.upper()` on one ASCII character. -/
def pyUpperChar (c : Char) : Char :=
  if 'a' ≤ c ∧ c ≤ 'z' then Char.ofNat (c.toNat - 32) else c

/-- Python `str.upper()` (ASCII), as the uppercased character list. -/
def pyUpper (s : String) : List Char :=
  s.data.map pyUpperChar

/-- Python `str.replace(x, "")` for a one-character pattern. -/
def removeChar (x : Char) (l : List Char) : List Char :=
  l.filter (fun c => c != x)

/-- Entity-level `async_select_source`: scan the profile's table in
order for the first name equal to the request up to ASCII case, write
its code, otherwise write nothing. -/
def entitySelectSource (c : Coord) (source : String) : List Write :=
  match (sourceNames c).find? (fun p => pyUpper source == pyUpper p.2) with
  | some p => [asyncSelectSourceCoord c p.1]
  | none => []

/-- `nubert_cli.py` `interact`: the CLI resolves a requested source name
with spaces and hyphens stripped on both sides before the
case-insensitive comparison (speaker table only). -/
def cliResolveSource (source : String) : Option Nat :=
  let key := (removeChar '-' (removeChar ' ' source.data)).map pyUpperChar
  (SOURCE_NAMES_SPEAKER.find?
      (fun p => key == (removeChar '-' (removeChar ' ' p.2.data)).map pyUpperChar)).map
    (fun p => p.1)

/-! ### Connection establishment (`_ensure_connected`) -/

/-- Outcome of one connect attempt body (connect + service discovery +
characteristic search + subscribe): either a usable connection with the
detected profile and notify support, or a raised error. -/
inductive AttemptOutcome where
  | success (isSub : Bool) (notify : Bool)
  | failure (err : Nat)
deriving DecidableEq, Repr

/-- What `_ensure_connected` does for the caller. -/
inductive EnsureResult where
  | alreadyConnected
  | connected (isSub : Bool) (notify : Bool)
  | connectFailedRaised (err : Nat)
  | returnedNoConnection
deriving DecidableEq, Repr

/-- The `for attempt in range(1, 4)` retry loop: on success return the
connection; on failure, raise only when `attempt == 5`, else sleep the
2s backoff and continue; falling off the loop returns normally with no
connection made. -/
def ensureConnectedLoop (f : Nat → AttemptOutcome) : List Nat → EnsureResult
  | [] => EnsureResult.returnedNoConnection
  | a :: rest =>
    match f a with
    | AttemptOutcome.success s n => EnsureResult.connected s n
    | AttemptOutcome.failure e =>
      if a = 5 then EnsureResult.connectFailedRaised e
      else ensureConnectedLoop f rest

/-- `_ensure_connected`: early return when the existing client reports
itself connected, else run the retry loop over attempts 1, 2, 3. -/
def ensureConnected (isConnected : Bool) (f : Nat → AttemptOutcome) :
    EnsureResult :=
  if isConnected then EnsureResult.alreadyConnected
  else ensureConnectedLoop f (List.range' 1 3)

/-! ### Reconciliation cycle (`_async_update_data`) -/

/-- Outcome of one poll attempt: a connect/write/link failure that the
`except BleakError` / `except Exception` arms turn into `UpdateFailed`,
or a completed attempt that delivered the listed notification frames
(possibly none, when the 3s wait timed out or the 2s polling-fallback
sleep elapsed) while consuming `dt` seconds of the clock. -/
inductive PollAttempt where
  | linkError (err : Nat)
  | received (frames : List (List Nat)) (dt : Nat)
deriving DecidableEq, Repr

/-- The `for attempt in range(1, 3)` body: apply the delivered frames,
return early once volume and source are both populated, otherwise break
on the 8s deadline, returning whatever state accumulated. -/
def runPoll (deadline : Nat) : Coord → Nat → List PollAttempt → Except Nat Coord
  | c, _, [] => Except.ok c
  | c, now, a :: rest =>
    match a with
    | PollAttempt.linkError e => Except.error e
    | PollAttempt.received frames dt =>
      let c' := List.foldl notificationCb c frames
      if c'.volume_db.isSome ∧ c'.source_code.isSome then Except.ok c'
      else if deadline < now + dt then Except.ok c'
      else runPoll deadline c' (now + dt) rest

/-- `_async_update_data`: at most two attempts under an overall deadline
of 8 seconds measured from the start of the cycle. -/
def asyncUpdateData (c : Coord) (attempts : List PollAttempt) :
    Except Nat Coord :=
  runPoll 8 c 0 (attempts.take 2)

/-- `c'` knows at least the Session State fields `c` knows: no field is
reset to unknown. -/
def sessionKnownLe (c c' : Coord) : Prop :=
  (c.power.isSome → c'.power.isSome) ∧
  (c.volume_db.isSome → c'.volume_db.isSome) ∧
  (c.source_code.isSome → c'.source_code.isSome) ∧
  (c.muted.isSome → c'.muted.isSome) ∧
  (c.is_slave.isSome → c'.is_slave.isSome)

/-! ### Helper lemmas about the notification callback -/

theorem intHex_power_get : intHex SOFT_POWER_OFF_GET = 0x1E := rfl

theorem intHex_volume_get : intHex VOLUME_ADJUST_GET = 0x0A := rfl

theorem intHex_source_get : intHex SOURCE_SELECT_GET = 0x0E := rfl

theorem intHex_mute_get : intHex MUTE_SETTING_GET = 0x4A := rfl

theorem intHex_slave_get : intHex IS_SLAVE = 0x4C := rfl

theorem cb_is_sub_eq (c : Coord) (data : List Nat) :
    (notificationCb c data).is_sub = c.is_sub := by
  rcases data with _ | ⟨cmd, _ | ⟨len, rest⟩⟩
  · rfl
  · rfl
  · simp only [notificationCb]
    repeat' split
    all_goals rfl

theorem cb_power_stable (c : Coord) (data : List Nat)
    (h : data.head? ≠ some 0x1E) : (notificationCb c data).power = c.power := by
  rcases data with _ | ⟨cmd, _ | ⟨len, rest⟩⟩
  · rfl
  · rfl
  · have hc : ¬cmd = 30 := by simpa using h
    simp only [notificationCb]
    repeat' split
    all_goals first | rfl | simp_all [intHex_power_get]

theorem cb_volume_stable (c : Coord) (data : List Nat)
    (h : data.head? ≠ some 0x0A) :
    (notificationCb c data).volume_db = c.volume_db := by
  rcases data with _ | ⟨cmd, _ | ⟨len, rest⟩⟩
  · rfl
  · rfl
  · have hc : ¬cmd = 10 := by simpa using h
    simp only [notificationCb]
    repeat' split
    all_goals first | rfl | simp_all [intHex_volume_get]

theorem cb_source_stable (c : Coord) (data : List Nat)
    (h : data.head? ≠ some 0x0E) :
    (notificationCb c data).source_code = c.source_code := by
  rcases data with _ | ⟨cmd, _ | ⟨len, rest⟩⟩
  · rfl
  · rfl
  · have hc : ¬cmd = 14 := by simpa using h
    simp only [notificationCb]
    repeat' split
    all_goals first | rfl | simp_all [intHex_source_get]

theorem cb_muted_stable (c : Coord) (data : List Nat)
    (h : data.head? ≠ some 0x4A) : (notificationCb c data).muted = c.muted := by
  rcases data with _ | ⟨cmd, _ | ⟨len, rest⟩⟩
  · rfl
  · rfl
  · have hc : ¬cmd = 74 := by simpa using h
    simp only [notificationCb]
    repeat' split
    all_goals first | rfl | simp_all [intHex_mute_get]

theorem cb_slave_stable (c : Coord) (data : List Nat)
    (h : data.head? ≠ some 0x4C) :
    (notificationCb c data).is_slave = c.is_slave := by
  rcases data with _ | ⟨cmd, _ | ⟨len, rest⟩⟩
  · rfl
  · rfl
  · have hc : ¬cmd = 76 := by simpa using h
    simp only [notificationCb]
    repeat' split
    all_goals first | rfl | simp_all [intHex_slave_get]

theorem cb_empty_payload (c : Coord) (cmd len : Nat) (rest : List Nat)
    (h : rest.take len = []) : notificationCb c (cmd :: len :: rest) = c := by
  simp only [notificationCb, h, parsePower, parseSource]
  repeat' split
  all_goals rfl

theorem knownLe_refl (c : Coord) : sessionKnownLe c c :=
  ⟨id, id, id, id, id⟩

theorem knownLe_trans {a b c : Coord} (h1 : sessionKnownLe a b)
    (h2 : sessionKnownLe b c) : sessionKnownLe a c :=
  ⟨fun h => h2.1 (h1.1 h), fun h => h2.2.1 (h1.2.1 h),
   fun h => h2.2.2.1 (h1.2.2.1 h), fun h => h2.2.2.2.1 (h1.2.2.2.1 h),
   fun h => h2.2.2.2.2 (h1.2.2.2.2 h)⟩

theorem cb_knownLe (c : Coord) (data : List Nat) :
    sessionKnownLe c (notificationCb c data) := by
  rcases data with _ | ⟨cmd, _ | ⟨len, rest⟩⟩
  · exact knownLe_refl c
  · exact knownLe_refl c
  · simp only [notificationCb]
    repeat' split
    all_goals first | exact knownLe_refl c | simp [sessionKnownLe]

theorem foldl_cb_knownLe (frames : List (List Nat)) (c : Coord) :
    sessionKnownLe c (List.foldl notificationCb c frames) := by
  induction frames generalizing c with
  | nil => exact knownLe_refl c
  | cons f fs ih =>
    exact knownLe_trans (cb_knownLe c f) (ih (notificationCb c f))

theorem runPoll_knownLe (attempts : List PollAttempt) (c : Coord)
    (now deadline : Nat) (c' : Coord)
    (h : runPoll deadline c now attempts = Except.ok c') :
    sessionKnownLe c c' := by
  induction attempts generalizing c now with
  | nil =>
    simp only [runPoll, Except.ok.injEq] at h
    exact h ▸ knownLe_refl c
  | cons a rest ih =>
    rcases a with e | ⟨frames, dt⟩
    · simp [runPoll] at h
    · simp only [runPoll] at h
      split at h
      · simp only [Except.ok.injEq] at h
        exact h ▸ foldl_cb_knownLe frames c
      · split at h
        · simp only [Except.ok.injEq] at h
          exact h ▸ foldl_cb_knownLe frames c
        · exact knownLe_trans (foldl_cb_knownLe frames c) (ih _ _ h)

/-! ### Claim theorems (first batch) -/

/-- C3: for every raw volume byte `r` in a volume notification
(command id 0x0A, payload length at least 1), the decoded dB value is
the raw byte clamped to the profile maximum minus the profile offset:
`min(r,100) - 100` for the Speaker profile and `min(r,21) - 15` for the
Subwoofer profile. -/
theorem c3_volume_decode (c : Coord) (len r : Nat) (rest : List Nat)
    (h : 1 ≤ len) :
    (notificationCb c (0x0A :: len :: r :: rest)).volume_db =
      some (if c.is_sub then ((min r 21 : Nat) : Int) - 15
            else ((min r 100 : Nat) : Int) - 100) := by
  obtain ⟨n, rfl⟩ : ∃ n, len = n + 1 := ⟨len - 1, by omega⟩
  simp only [notificationCb, intHex_power_get, intHex_volume_get,
    List.take_succ_cons]
  norm_num
  rcases hsub : c.is_sub <;> simp [hsub]

/-- Witness for C3 at raw byte 50 on each profile. -/
theorem c3_volume_decode_witness :
    (notificationCb initCoord [0x0A, 1, 50]).volume_db = some (-50) ∧
    (notificationCb { initCoord with is_sub := true }
        [0x0A, 1, 50]).volume_db = some 6 := by
  constructor
  · rw [c3_volume_decode initCoord 1 50 [] (by decide)]
    decide
  · rw [c3_volume_decode { initCoord with is_sub := true } 1 50 [] (by decide)]
    decide

/-- C7: a frame shorter than 2 bytes is rejected without touching any
Session State field (the handler is a total function, so no exception
escapes the decode boundary). -/
theorem c7_short_frame_ignored (c : Coord) (data : List Nat)
    (h : data.length < 2) : notificationCb c data = c := by
  rcases data with _ | ⟨a, _ | ⟨b, rest⟩⟩
  · rfl
  · rfl
  · simp only [List.length_cons] at h
    omega

/-- Witness for C7: a 1-byte frame on the initial state. -/
theorem c7_short_frame_ignored_witness :
    notificationCb initCoord [0x0A] = initCoord :=
  c7_short_frame_ignored initCoord [0x0A] (by decide)

/-- C8: a well-formed frame whose command id is outside the recognized
set `{0x1E, 0x0A, 0x0E, 0x4A, 0x4C}` leaves every Session State field
unchanged (and, the handler being total, raises nothing). -/
theorem c8_unrecognized_ignored (c : Coord) (cmd len : Nat)
    (rest : List Nat)
    (h : cmd ∉ ([0x1E, 0x0A, 0x0E, 0x4A, 0x4C] : List Nat)) :
    notificationCb c (cmd :: len :: rest) = c := by
  simp only [List.mem_cons, List.not_mem_nil, or_false, not_or] at h
  obtain ⟨h1, h2, h3, h4, h5⟩ := h
  simp only [notificationCb, intHex_power_get, intHex_volume_get,
    intHex_source_get, intHex_mute_get, intHex_slave_get]
  simp [h1, h2, h3, h4, h5]

/-- Witness for C8: the BLE_CONNECT_INDICATION id 0x4D with a payload. -/
theorem c8_unrecognized_ignored_witness :
    notificationCb initCoord [0x4D, 1, 1] = initCoord :=
  c8_unrecognized_ignored initCoord 0x4D 1 [1] (by decide)

/-- C10: a notification frame mutates at most the single Session State
field addressed by its command id (power for 0x1E, volume for 0x0A,
source for 0x0E, mute for 0x4A, role for 0x4C), never the
device-profile selection, and a frame with an empty payload mutates
nothing. -/
theorem c10_single_field_effect (c : Coord) (data : List Nat) :
    ((notificationCb c data).is_sub = c.is_sub) ∧
    (data.head? ≠ some 0x1E → (notificationCb c data).power = c.power) ∧
    (data.head? ≠ some 0x0A →
      (notificationCb c data).volume_db = c.volume_db) ∧
    (data.head? ≠ some 0x0E →
      (notificationCb c data).source_code = c.source_code) ∧
    (data.head? ≠ some 0x4A → (notificationCb c data).muted = c.muted) ∧
    (data.head? ≠ some 0x4C →
      (notificationCb c data).is_slave = c.is_slave) ∧
    (∀ cmd len rest, data = cmd :: len :: rest → rest.take len = [] →
      notificationCb c data = c) :=
  ⟨cb_is_sub_eq c data,
   fun h => cb_power_stable c data h,
   fun h => cb_volume_stable c data h,
   fun h => cb_source_stable c data h,
   fun h => cb_muted_stable c data h,
   fun h => cb_slave_stable c data h,
   fun cmd len rest hdata hp => hdata ▸ cb_empty_payload c cmd len rest hp⟩

/-- Witness for C10: a volume frame leaves the other fields and the
profile flag of a populated state unchanged, and an empty-payload power
frame changes nothing. -/
theorem c10_single_field_effect_witness :
    (notificationCb { initCoord with power := some true }
        [0x0A, 1, 50]).power = some true ∧
    notificationCb initCoord [0x1E, 0] = initCoord := by
  constructor
  · exact (c10_single_field_effect { initCoord with power := some true }
      [0x0A, 1, 50]).2.1 (by decide)
  · exact (c10_single_field_effect initCoord [0x1E, 0]).2.2.2.2.2.2
      0x1E 0 [] rfl (by decide)

theorem intHex_volume_set : intHex VOLUME_ADJUST_SET = 0x0B := rfl

/-- C1 (code bug): with no existing connection and every one of the
three connect attempts failing (here each raises error 7),
`_ensure_connected` returns normally with no usable connection instead
of surfacing a connect failure — the `raise` is guarded by
`attempt == 5`, which `for attempt in range(1, 4)` never reaches. -/
theorem c1_retry_exhaustion_silent :
    ensureConnected false (fun _ => AttemptOutcome.failure 7) =
      EnsureResult.returnedNoConnection := rfl

/-- C2: a reconciliation cycle (i) returns as soon as an attempt leaves
both volume and source populated, ignoring any remaining attempt,
(ii) on any completed cycle never resets a known Session State field to
unknown, and (iii) when no notification at all arrives and the deadline
elapses, ends with the cached state exactly unchanged. -/
theorem c2_reconciliation_cycle :
    (∀ (c : Coord) (frames : List (List Nat)) (dt : Nat)
        (rest : List PollAttempt),
      (List.foldl notificationCb c frames).volume_db.isSome →
      (List.foldl notificationCb c frames).source_code.isSome →
      asyncUpdateData c (PollAttempt.received frames dt :: rest) =
        Except.ok (List.foldl notificationCb c frames)) ∧
    (∀ (c c' : Coord) (attempts : List PollAttempt),
      asyncUpdateData c attempts = Except.ok c' → sessionKnownLe c c') ∧
    (∀ (c : Coord) (dt1 dt2 : Nat),
      asyncUpdateData c
          [PollAttempt.received [] dt1, PollAttempt.received [] dt2] =
        Except.ok c) := by
  refine ⟨?_, ?_, ?_⟩
  · intro c frames dt rest h1 h2
    simp only [asyncUpdateData, List.take_succ_cons, runPoll]
    rw [if_pos ⟨h1, h2⟩]
  · intro c c' attempts h
    exact runPoll_knownLe _ c 0 8 c' h
  · intro c dt1 dt2
    simp only [asyncUpdateData, List.take_succ_cons, List.take_nil,
      runPoll, List.foldl_nil]
    repeat' split
    all_goals rfl

/-- Witness for C2: a satisfied first attempt returns early, and a
cycle with no frames at all leaves the initial state unchanged. -/
theorem c2_reconciliation_cycle_witness :
    asyncUpdateData initCoord
        [PollAttempt.received [[0x0A, 1, 50], [0x0E, 1, 0]] 1,
         PollAttempt.received [] 9] =
      Except.ok (List.foldl notificationCb initCoord
        [[0x0A, 1, 50], [0x0E, 1, 0]]) ∧
    asyncUpdateData initCoord
        [PollAttempt.received [] 9, PollAttempt.received [] 1] =
      Except.ok initCoord :=
  ⟨c2_reconciliation_cycle.1 initCoord [[0x0A, 1, 50], [0x0E, 1, 0]] 1
      [PollAttempt.received [] 9] (by decide) (by decide),
   c2_reconciliation_cycle.2.2 initCoord 9 1⟩

/-- C4: `async_set_volume` leaves the cached state untouched and writes
a single volume-set frame whose raw byte is within `[0, profileMax]`;
a request already inside the profile's legal dB range is transmitted
as `db + offset` unchanged. -/
theorem c4_set_volume_clamps (c : Coord) (db : Int) :
    (asyncSetVolume c db).1 = c ∧
    ∃ r : Nat, (asyncSetVolume c db).2.frame = [0x0B, 1, r] ∧
      r ≤ (if c.is_sub then 21 else 100) ∧
      ((if c.is_sub then -15 ≤ db ∧ db ≤ 6 else -100 ≤ db ∧ db ≤ 0) →
        (r : Int) = db + (if c.is_sub then 15 else 100)) := by
  rcases hsub : c.is_sub
  · refine ⟨by simp [asyncSetVolume, hsub], ?_⟩
    refine ⟨(max (-100) (min 0 db) + 100).toNat, ?_, ?_, ?_⟩
    · simp [asyncSetVolume, hsub, sendSimple, intHex_volume_set]
    · show (max (-100) (min 0 db) + 100).toNat ≤ 100
      omega
    · intro hdb
      have hdb2 : -100 ≤ db ∧ db ≤ 0 := hdb
      show ((max (-100) (min 0 db) + 100).toNat : Int) = db + 100
      omega
  · refine ⟨by simp [asyncSetVolume, hsub], ?_⟩
    refine ⟨(max (-15) (min 6 db) + 15).toNat, ?_, ?_, ?_⟩
    · simp [asyncSetVolume, hsub, sendSimple, intHex_volume_set]
    · show (max (-15) (min 6 db) + 15).toNat ≤ 21
      omega
    · intro hdb
      have hdb2 : -15 ≤ db ∧ db ≤ 6 := hdb
      show ((max (-15) (min 6 db) + 15).toNat : Int) = db + 15
      omega

/-- Witness for C4: requesting −42 dB on the Speaker profile keeps the
state and writes raw byte 58. -/
theorem c4_set_volume_clamps_witness :
    (asyncSetVolume initCoord (-42)).1 = initCoord ∧
    (asyncSetVolume initCoord (-42)).2.frame = [0x0B, 1, 58] := by
  obtain ⟨h1, r, h2, h3, h4⟩ := c4_set_volume_clamps initCoord (-42)
  have h5 : (r : Int) = 58 := by
    have h6 := h4 (by decide)
    omega
  have h7 : r = 58 := by exact_mod_cast h5
  exact ⟨h1, h7 ▸ h2⟩

/-- C5: after `async_set_power x` the cached power equals `x` with no
notification involved, and an immediate second call with the same `x`
issues zero writes. -/
theorem c5_set_power_optimistic (c : Coord) (x : Bool) :
    (asyncSetPower c x).1.power = some x ∧
    (asyncSetPower (asyncSetPower c x).1 x).2 = [] := by
  by_cases h : c.power = some x
  · simp [asyncSetPower, h]
  · simp [asyncSetPower, h]

/-- C6 counterexample: the entity's source resolution does NOT strip
separators — `"coax1"` resolves nothing and performs no write, although
the Speaker table maps code 4 to `"COAX 1"` (the claimed behavior is
the standalone CLI's, which does strip spaces and hyphens). -/
theorem c6_counterexample_no_separator_stripping :
    entitySelectSource initCoord "coax1" = [] ∧
    (0x04, "COAX 1") ∈ SOURCE_NAMES_SPEAKER ∧
    cliResolveSource "coax1" = some 0x04 :=
  ⟨by decide, by decide, by decide⟩

/-- C6 (amended): the entity resolves a source name against the active
profile's table case-insensitively but with separators intact — two
requests equal up to ASCII case resolve identically, a name matching no
table entry performs no write, and `"coax 1"` (not `"coax1"`) selects
the code mapped to `"COAX 1"`. -/
theorem c6_amended_source_resolution :
    (∀ (c : Coord) (u v : String), pyUpper u = pyUpper v →
      entitySelectSource c u = entitySelectSource c v) ∧
    (∀ (c : Coord) (s : String),
      (sourceNames c).find? (fun p => pyUpper s == pyUpper p.2) = none →
      entitySelectSource c s = []) ∧
    entitySelectSource initCoord "coax 1" =
      [asyncSelectSourceCoord initCoord 0x04] ∧
    entitySelectSource initCoord "CoAx 1" =
      [asyncSelectSourceCoord initCoord 0x04] := by
  refine ⟨?_, ?_, by decide, by decide⟩
  · intro c u v h
    simp only [entitySelectSource, h]
  · intro c s h
    simp only [entitySelectSource, h]

/-- Witness for C6 (amended): `"aux"` and `"AUX"` resolve identically. -/
theorem c6_amended_source_resolution_witness :
    entitySelectSource initCoord "AUX" = entitySelectSource initCoord "aux" :=
  c6_amended_source_resolution.1 initCoord "AUX" "aux" (by decide)

/-- C9: the batched query written each cycle is the request encoding of
command 0x40 with payload exactly the five query ids for power, volume,
source, mute and role, and its length byte is 5. -/
theorem c9_bulk_query_frame :
    COMMAND_BYTES = encodeRequest 0x40 [0x1E, 0x0A, 0x0E, 0x4A, 0x4C] ∧
    COMMAND_BYTES = [0x40, 0x05, 0x1E, 0x0A, 0x0E, 0x4A, 0x4C] :=
  ⟨rfl, rfl⟩
